import Mathlib

/-!
Verification of the planar 2D geometry library against its specification.

The relevant Python modules (planar/transform.py, planar/collision.py,
planar/polygon.py, planar/vector.py, planar/line.py, planar/shape_op.py,
planar/util.py) are shallowly embedded below.  Float arithmetic is
idealized as exact arithmetic: rational numbers where the embedded code is
purely arithmetical, real numbers where square roots or trigonometric
functions occur.  Stateful Python objects are modelled by explicit state
values; code paths that raise are modelled with Option or Except results.
-/

namespace Planar

/-- Global tolerance EPSILON, set to 1e-5 at package load time
(planar/set_epsilon in the package init module), as an exact rational. -/
def EPSILON : ℚ := 1 / 100000

/-! ### Affine transforms (planar/transform.py), over exact rationals -/

/-- An Affine transform stored as the first two rows of its 3x3 matrix
(transform.py, class Affine); the third row is implicitly (0, 0, 1). The
row-major member labels follow the source: a b c / d e f. -/
structure Affine where
  a : ℚ
  b : ℚ
  c : ℚ
  d : ℚ
  e : ℚ
  f : ℚ
deriving DecidableEq

/-- The identity transform (transform.py line 316). -/
def Affine.identity : Affine := ⟨1, 0, 0, 0, 1, 0⟩

/-- Source Affine.scale (transform.py lines 82-109): scaling by (sx, sy),
where a scalar scaling argument gives sx = sy and a 2-vector scaling gives
the two factors independently; optionally about an anchor point.  The
anchored branch builds the members (sx, 0, sx*ax - ax, 0, sy, sy*ay - ay)
exactly as on lines 106-109. -/
def Affine.scale (sx sy : ℚ) (anchor : Option (ℚ × ℚ)) : Affine :=
  match anchor with
  | none => ⟨sx, 0, 0, 0, sy, 0⟩
  | some anch => ⟨sx, 0, sx * anch.1 - anch.1, 0, sy, sy * anch.2 - anch.2⟩

/-- Source Affine.__mul__ applied to a Vec2 operand (transform.py lines
257-259): (vx, vy) maps to (vx*a + vy*b + c, vx*d + vy*e + f). -/
def Affine.applyVec (t : Affine) (v : ℚ × ℚ) : ℚ × ℚ :=
  (v.1 * t.a + v.2 * t.b + t.c, v.1 * t.d + v.2 * t.e + t.f)

/-- Source Affine.__mul__ on two transforms (transform.py lines 250-256). -/
def Affine.mul (s o : Affine) : Affine :=
  ⟨s.a * o.a + s.b * o.d, s.a * o.b + s.b * o.e, s.a * o.c + s.b * o.f + s.c,
   s.d * o.a + s.e * o.d, s.d * o.b + s.e * o.e, s.d * o.c + s.e * o.f + s.f⟩

/-- Source Affine.determinant (transform.py lines 174-181): a*e - b*d. -/
def Affine.determinant (t : Affine) : ℚ := t.a * t.e - t.b * t.d

/-- Source Affine.is_degenerate (transform.py lines 199-205). -/
def Affine.is_degenerate (t : Affine) : Bool :=
  decide (|t.determinant| < EPSILON)

/-- Source Affine.__invert__ (transform.py lines 293-311): the closed-form
inverse computed through the reciprocal determinant.  The source first
raises TransformNotInvertibleError when is_degenerate; that guard is
modelled by invertResult below, while invert is the arithmetic of the
non-raising path. -/
def Affine.invert (t : Affine) : Affine :=
  let idet := 1 / t.determinant
  let ra := t.e * idet
  let rb := -t.b * idet
  let rd := -t.d * idet
  let re := t.a * idet
  ⟨ra, rb, -t.c * ra - t.f * rb, rd, re, -t.c * rd - t.f * re⟩

/-- Source Affine.__invert__ including the degenerate-transform guard:
none models the TransformNotInvertibleError path. -/
def Affine.invertResult (t : Affine) : Option Affine :=
  if t.is_degenerate then none else some t.invert

/-- Source Affine.almost_equals (transform.py lines 213-224): each of the
six stored members differs by strictly less than EPSILON. -/
def Affine.almost_equals (x y : Affine) : Bool :=
  decide (|x.a - y.a| < EPSILON) && decide (|x.b - y.b| < EPSILON) &&
  decide (|x.c - y.c| < EPSILON) && decide (|x.d - y.d| < EPSILON) &&
  decide (|x.e - y.e| < EPSILON) && decide (|x.f - y.f| < EPSILON)

/-! ### Quad-tree split assessment (planar/collision.py) -/

/-- Source QuadTreeSpace._split assessment (collision.py lines 315-331).
Inputs: the node_capacity and, for each member of the node being split,
whether the node-assignment descent restricted to the provisional children
would move that member down out of the node (true = the member leaves the
node, so it contributes to child_moves on lines 318-322).  The result is
true when the split is committed and false when it is rejected and the
provisional children are discarded.  The source rejects exactly when
child_moves * 4 >= len(node.members) or child_moves * 2 >= node_capacity
(lines 324-331). -/
def splitCommits (node_capacity : ℕ) (moves_down : List Bool) : Bool :=
  let child_moves := (moves_down.filter (fun m => m)).length
  if child_moves * 4 ≥ moves_down.length ∨ child_moves * 2 ≥ node_capacity then
    false
  else
    true

/-- Specification wording of the rejection condition (spec section 4.10 and
claim C2): the split is rejected when fewer than node_capacity/2 members,
or fewer than a quarter of the members, would move down into the children.
Stated over the rationals so the halves and quarters are exact. -/
def specSplitRejected (node_capacity n_members child_moves : ℕ) : Prop :=
  (child_moves : ℚ) < (node_capacity : ℚ) / 2 ∨
  (child_moves : ℚ) < (n_members : ℚ) / 4

/-! ### Bounding boxes and shape_op (planar/shape_op.py) -/

/-- An axis-aligned bounding box via its min_point and max_point
coordinates, as read by shape_op.py. -/
structure BBox where
  minx : ℚ
  miny : ℚ
  maxx : ℚ
  maxy : ℚ
deriving DecidableEq

/-- Source bbox_collides_bbox (shape_op.py lines 12-17): the half-open
overlap test, strict on the min side of the second box and inclusive on
its max side. -/
def bbox_collides_bbox (x y : BBox) : Bool :=
  decide (x.minx < y.maxx) && decide (x.maxx ≥ y.minx) &&
  decide (x.miny < y.maxy) && decide (x.maxy ≥ y.miny)

/-! ### Polygon cached classification state (planar/polygon.py) -/

/-- Tri-state cached classification value: the _unknown sentinel object of
polygon.py line 284, or a cached boolean. -/
inductive Tri where
  | unknown : Tri
  | known : Bool → Tri
deriving DecidableEq

/-- State of a Polygon: its vertices plus the cached slots _convex,
_simple, _degenerate and _bbox of polygon.py. -/
structure PolyState where
  verts : List (ℚ × ℚ)
  convex : Tri
  simple : Tri
  degenerate : Tri
  bbox : Option BBox
deriving DecidableEq

/-- Source Polygon._clear_cached_properties (polygon.py lines 85-93):
more than 3 vertices resets convexity and simplicity to unknown, exactly 3
vertices re-flags both as known true; degeneracy and the bounding box are
reset unconditionally. -/
def clearCachedProperties (p : PolyState) : PolyState :=
  if p.verts.length > 3 then
    { p with convex := Tri.unknown, simple := Tri.unknown,
             degenerate := Tri.unknown, bbox := none }
  else
    { p with convex := Tri.known true, simple := Tri.known true,
             degenerate := Tri.unknown, bbox := none }

/-- Source Polygon.__init__ (polygon.py lines 46-50): fewer than 3 vertices
raises ValueError (modelled as none), otherwise the cached state is
initialized through _clear_cached_properties. -/
def mkPolygon (vs : List (ℚ × ℚ)) : Option PolyState :=
  if vs.length < 3 then none
  else some (clearCachedProperties ⟨vs, Tri.unknown, Tri.unknown, Tri.unknown, none⟩)

/-- Source Polygon.__setitem__ (polygon.py lines 279-281): replace the
vertex, then clear all cached derived state. -/
def polySetItem (p : PolyState) (i : ℕ) (v : ℚ × ℚ) : PolyState :=
  clearCachedProperties { p with verts := p.verts.set i v }

/-- Source Polygon.is_convex_known (polygon.py lines 113-121). -/
def isConvexKnown (p : PolyState) : Bool := decide (p.convex ≠ Tri.unknown)

/-- Source Polygon.is_simple_known (polygon.py lines 199-207). -/
def isSimpleKnown (p : PolyState) : Bool := decide (p.simple ≠ Tri.unknown)

/-! ### Polygon self-intersection checks (planar/polygon.py) -/

/-- A polygon edge as its ordered pair of endpoints. -/
abbrev Seg := (ℚ × ℚ) × (ℚ × ℚ)

/-- Source Polygon._segments_intersect (polygon.py lines 209-220): the
orientation-sign segment intersection test.  A Python float is falsy
exactly when it is zero, so the source condition
(not dir1) != (not dir2) reads: exactly one of the two cross products is
zero. -/
def segmentsIntersect (a b c d : ℚ × ℚ) : Bool :=
  let dir1 := (b.1 - a.1) * (c.2 - a.2) - (c.1 - a.1) * (b.2 - a.2)
  let dir2 := (b.1 - a.1) * (d.2 - a.2) - (d.1 - a.1) * (b.2 - a.2)
  if (decide (dir1 > 0) != decide (dir2 > 0)) ||
     (decide (dir1 = 0) != decide (dir2 = 0)) then
    let dir3 := (d.1 - c.1) * (a.2 - c.2) - (a.1 - c.1) * (d.2 - c.2)
    let dir4 := (d.1 - c.1) * (b.2 - c.2) - (b.1 - c.1) * (d.2 - c.2)
    (decide (dir3 > 0) != decide (dir4 > 0)) ||
    (decide (dir3 = 0) != decide (dir4 = 0))
  else
    false

/-- Vertex access with the Python wrap-around index: self[i - 1] for
i in range(n) reads the last vertex when i = 0, modelled by reading at
index (i + n - 1) mod n. -/
def vIdx (vs : List (ℚ × ℚ)) (i : ℕ) : ℚ × ℚ :=
  vs.getD (i % vs.length) (0, 0)

/-- The edge list [(self[i - 1], self[i]) for i in range(len(self))] built
on polygon.py line 225 (and, as event tuples, line 257). -/
def polyEdges (vs : List (ℚ × ℚ)) : List Seg :=
  (List.range vs.length).map (fun i => (vIdx vs (i + vs.length - 1), vIdx vs i))

/-- The while loop of _check_is_simple_brute_force (polygon.py lines
233-241).  The segment list is kept reversed so that the Python
list.pop() from the end is the list head here: the current edge ab is
tested against every segment remaining after the next edge is popped, then
the loop continues with that next edge.  True means no intersection found. -/
def bruteLoop : Seg → List Seg → Bool
  | _, [] => true
  | _, [_] => true
  | ab, nxt :: rest =>
    if rest.any (fun cd => segmentsIntersect ab.1 ab.2 cd.1 cd.2) then false
    else bruteLoop nxt rest

/-- Source Polygon._check_is_simple_brute_force (polygon.py lines 222-242):
pairwise segment-intersection over all non-adjacent edges.  The last edge
is first tested against segments[1:-1] (skipping its two neighbours), then
the remaining edges are handled by the while loop.  True means the polygon
is classified simple. -/
def checkIsSimpleBruteForce (vs : List (ℚ × ℚ)) : Bool :=
  match (polyEdges vs).reverse with
  | [] => true
  | ab :: r1 =>
    if ((r1.drop 1).dropLast).any
        (fun cd => segmentsIntersect ab.1 ab.2 cd.1 cd.2) then false
    else
      match r1 with
      | [] => true
      | ab2 :: r2 => bruteLoop ab2 r2

/-- An event of the plane sweep: an oriented copy of an edge with its edge
index, as built on polygon.py lines 257-258. -/
abbrev Event := (ℚ × ℚ) × (ℚ × ℚ) × ℕ

/-- Python lexicographic < on coordinate pairs. -/
def pairLT (p q : ℚ × ℚ) : Bool :=
  decide (p.1 < q.1) || (decide (p.1 = q.1) && decide (p.2 < q.2))

/-- Python lexicographic < on event tuples (start point, end point, index),
the order used by points.sort() on polygon.py line 259. -/
def eventLT (x y : Event) : Bool :=
  pairLT x.1 y.1 ||
  (decide (x.1 = y.1) &&
    (pairLT x.2.1 y.2.1 ||
      (decide (x.2.1 = y.2.1) && decide (x.2.2 < y.2.2))))

/-- Stable insertion of an event into an already sorted list: the new event
passes every earlier event that is not strictly greater, matching the
stability of the Python sort. -/
def insertEvent (e : Event) : List Event → List Event
  | [] => [e]
  | x :: xs => if eventLT e x then e :: x :: xs else x :: insertEvent e xs

/-- Stable insertion sort of the event list, matching points.sort(). -/
def sortEvents (es : List Event) : List Event :=
  es.foldl (fun acc e => insertEvent e acc) []

/-- The event loop of _check_is_simple (polygon.py lines 262-277).  opens
is the open_segments dict as an association list in insertion order; the
first event of an edge index opens it after testing it against every open
non-adjacent edge, the second closes it.  True means the polygon is
classified simple. -/
def sweepLoop (last_index : ℕ) : List Event → List Event → Bool
  | [], _ => true
  | ev :: rest, opens =>
    if opens.any (fun o => o.2.2 == ev.2.2) then
      sweepLoop last_index rest (opens.filter (fun o => o.2.2 != ev.2.2))
    else if opens.any (fun o =>
        decide (last_index > Nat.dist ev.2.2 o.2.2) &&
        decide (Nat.dist ev.2.2 o.2.2 > 1) &&
        segmentsIntersect ev.1 ev.2.1 o.1 o.2.1) then
      false
    else
      sweepLoop last_index rest (opens ++ [ev])

/-- Source Polygon._check_is_simple (polygon.py lines 244-277): the
simplified plane-sweep self-intersection check.  Both orientations of every
edge are sorted lexicographically and swept with the open-segment set.
True means the polygon is classified simple. -/
def checkIsSimple (vs : List (ℚ × ℚ)) : Bool :=
  let n := vs.length
  let pts : List Event :=
    ((List.range n).map (fun i => (vIdx vs (i + n - 1), vIdx vs i, i))) ++
    ((List.range n).map (fun i => (vIdx vs i, vIdx vs (i + n - 1), i)))
  sweepLoop (n - 1) (sortEvents pts) []

/-- The polygon (0,0), (1,1), (2,0), (1,1): its boundary passes through the
vertex (1,1) twice, so non-adjacent edges touch there. -/
def pinchPoly : List (ℚ × ℚ) := [(0, 0), (1, 1), (2, 0), (1, 1)]

/-! ### Real-valued embedding: Vec2 (planar/vector.py) -/

noncomputable section RealModel

/-- Global tolerance EPSILON as a real number, for the parts of the
embedding that need square roots or trigonometry. -/
def EPSILONR : ℝ := 1 / 100000

/-- A Vec2 (vector.py): the immutable coordinate pair together with the
slot for the memoized length attribute.  cached_property (util.py lines
2-12) stores the first computed value in the instance dict under the
attribute name; Vec2.polar (line 62) and Vec2.scaled_to (line 207)
pre-seed that slot directly, so the slot is carried explicitly.  The
length2 slot is only ever pre-seeded with its exact value (by normalized),
so length2 is modelled as always computed from the coordinates. -/
structure Vec2R where
  x : ℝ
  y : ℝ
  cachedLength : Option ℝ

/-- Source Vec2.__new__ (vector.py lines 47-48): direct construction from
two coordinates, caching nothing. -/
def Vec2R.make (x y : ℝ) : Vec2R := ⟨x, y, none⟩

/-- Source Vec2.length2 (vector.py lines 88-91): x**2 + y**2. -/
def Vec2R.length2attr (v : Vec2R) : ℝ := v.x ^ 2 + v.y ^ 2

/-- Source Vec2.length (vector.py lines 83-86): the memoized attribute.
When the slot was pre-seeded, the stored value is returned without
recomputation; otherwise the square root of length2 is computed. -/
def Vec2R.lengthAttr (v : Vec2R) : ℝ :=
  match v.cachedLength with
  | some L => L
  | none => Real.sqrt v.length2attr

/-- The distinguished null vector (vector.py line 432). -/
def Vec2R.null : Vec2R := ⟨0, 0, none⟩

/-- Source Vec2.polar (vector.py lines 50-63): the vector
(cos(radians)*length, sin(radians)*length) with radians the angle converted
from degrees; the length argument times 1.0 is stored directly into the
memoized length slot on line 62. -/
def Vec2R.polar (angle length : ℝ) : Vec2R :=
  let radians := angle * Real.pi / 180
  ⟨Real.cos radians * length, Real.sin radians * length, some (length * 1)⟩

/-- Source Vec2.scaled_to (vector.py lines 193-210): when the memoized
length exceeds EPSILON the coordinates are scaled by length/L and the
requested length is pre-seeded into the memoized length slot (line 207);
otherwise the null vector is returned. -/
def Vec2R.scaled_to (v : Vec2R) (length : ℝ) : Vec2R :=
  let L := v.lengthAttr
  if L > EPSILONR then
    let s := length / L
    ⟨v.x * s, v.y * s, some length⟩
  else
    Vec2R.null

/-! ### Ordering comparisons on Vec2 (vector.py and util.py) -/

/-- A Python operand of an ordering comparison against a Vec2: another
Vec2, or a value without a length2 attribute such as a plain tuple or a
number. -/
inductive Operand where
  | vec : Vec2R → Operand
  | tup : List ℝ → Operand
  | num : ℝ → Operand

/-- Outcome of an ordering comparison: either the proposition the source
computes, or the unorderable-comparison error. -/
inductive CmpOutcome where
  | raises : CmpOutcome
  | value : Prop → CmpOutcome

/-- Modelled from the spec: assert_unorderable is imported by vector.py but
is missing from src/lib/planar/util.py; spec section 4.6 specifies that the
unorderable-comparison assertion signals a cannot-order-these-types error
whenever an ordering comparison is attempted between incompatible types. -/
def assert_unorderable : CmpOutcome := CmpOutcome.raises

/-- Source Vec2.__lt__ (vector.py lines 310-317): self.length2 compared
with other.length2; an operand without a length2 attribute raises
AttributeError and the handler invokes assert_unorderable. -/
def Vec2R.ltOp (u : Vec2R) : Operand → CmpOutcome
  | Operand.vec v => CmpOutcome.value (u.length2attr < v.length2attr)
  | Operand.tup _ => assert_unorderable
  | Operand.num _ => assert_unorderable

/-- Source Vec2.__le__ (vector.py lines 319-326). -/
def Vec2R.leOp (u : Vec2R) : Operand → CmpOutcome
  | Operand.vec v => CmpOutcome.value (u.length2attr ≤ v.length2attr)
  | Operand.tup _ => assert_unorderable
  | Operand.num _ => assert_unorderable

/-- Source Vec2.__gt__ (vector.py lines 292-299). -/
def Vec2R.gtOp (u : Vec2R) : Operand → CmpOutcome
  | Operand.vec v => CmpOutcome.value (u.length2attr > v.length2attr)
  | Operand.tup _ => assert_unorderable
  | Operand.num _ => assert_unorderable

/-- Source Vec2.__ge__ (vector.py lines 301-308). -/
def Vec2R.geOp (u : Vec2R) : Operand → CmpOutcome
  | Operand.vec v => CmpOutcome.value (u.length2attr ≥ v.length2attr)
  | Operand.tup _ => assert_unorderable
  | Operand.num _ => assert_unorderable

/-! ### Star polygon constructor (planar/polygon.py) -/

/-- Python error kinds surfaced by the embedded constructors. -/
inductive PyErr where
  | nameErr : PyErr
  | valueErr : PyErr
deriving DecidableEq

/-- Modelled from the spec: cos_sin_deg is imported by polygon.py but is
missing from src/lib/planar/util.py; spec section 4.6 specifies that it
returns the cosine and sine of an angle given in degrees. -/
def cos_sin_deg (deg : ℝ) : ℝ × ℝ :=
  (Real.cos (deg * Real.pi / 180), Real.sin (deg * Real.pi / 180))

/-- Source Polygon.star exactly as written (polygon.py lines 52-83): the
parameter is named peaks, but every use in the body refers to peak_count,
a name bound nowhere in the module, so the very first statement of any
call raises NameError before any argument is examined. -/
def Polygon.star (_peaks : ℤ) (_radius1 _radius2 : ℝ) (_center : ℝ × ℝ)
    (_angle : ℝ) : Except PyErr (List (ℝ × ℝ)) :=
  .error PyErr.nameErr

/-- The loop of Polygon.star exactly as written (polygon.py lines 77-82),
under only the name fix peak_count := peaks: each iteration appends the
radius1 vertex at the current angle, advances the angle by angle_step once
(line 80, the sole increment of the loop body), then appends the radius2
vertex at the advanced angle; the next iteration starts from that same
advanced angle. -/
def starLoop (radius1 radius2 cx cy angle_step : ℝ) :
    ℕ → ℝ → List (ℝ × ℝ)
  | 0, _ => []
  | n + 1, angle =>
    let cs1 := cos_sin_deg angle
    let angle2 := angle + angle_step
    let cs2 := cos_sin_deg angle2
    (cs1.1 * radius1 + cx, cs1.2 * radius1 + cy) ::
    (cs2.1 * radius2 + cx, cs2.2 * radius2 + cy) ::
    starLoop radius1 radius2 cx cy angle_step n angle2

/-- Source Polygon.star (polygon.py lines 71-83) under only the name fix
peak_count := peaks, changing nothing else: peaks below 2 raises
ValueError, angle_step is 180.0/peaks, and the loop runs peaks times
producing 2*peaks vertices.  Because the loop advances the angle only once
per iteration, each odd vertex shares its angle with the following even
vertex and the figure spans only half a turn plus one step. -/
def Polygon.star_name_fixed (peaks : ℤ) (radius1 radius2 : ℝ)
    (center : ℝ × ℝ) (angle : ℝ) : Except PyErr (List (ℝ × ℝ)) :=
  if peaks < 2 then .error PyErr.valueErr
  else
    .ok (starLoop radius1 radius2 center.1 center.2 (180 / (peaks : ℝ))
      peaks.toNat angle)

/-- The vertex placement the claim and the spec describe (spec section
4.7, also asserted literally by test_polygon.py test_star and
test_star_with_center_and_angle): 2*peaks vertices where vertex j sits at
angle + j*(180/peaks) degrees, at radius1 for even j and radius2 for odd
j, offset by center. -/
def starClaimed (peaks : ℕ) (radius1 radius2 : ℝ) (center : ℝ × ℝ)
    (angle : ℝ) : List (ℝ × ℝ) :=
  (List.range (2 * peaks)).map (fun j =>
    let cs := cos_sin_deg (angle + (j : ℝ) * (180 / (peaks : ℝ)))
    if j % 2 = 0 then (cs.1 * radius1 + center.1, cs.2 * radius1 + center.2)
    else (cs.1 * radius2 + center.1, cs.2 * radius2 + center.2))

/-! ### Lines and intersect_line_bbox (planar/line.py, planar/shape_op.py) -/

/-- Source Vec2.perpendicular (vector.py lines 129-134) on a plain pair:
the counter-clockwise quarter turn (-y, x). -/
def perpP (v : ℝ × ℝ) : ℝ × ℝ := (-v.2, v.1)

/-- Source Vec2.normalized (vector.py lines 115-127) on a plain pair:
divide by the length when it exceeds EPSILON, else the null vector. -/
def normalizedP (v : ℝ × ℝ) : ℝ × ℝ :=
  let L := Real.sqrt (v.1 ^ 2 + v.2 ^ 2)
  if L > EPSILONR then (v.1 / L, v.2 / L) else (0, 0)

/-- A Line (line.py): its unit direction, unit normal and scalar offset. -/
structure LineR where
  direction : ℝ × ℝ
  normal : ℝ × ℝ
  offset : ℝ

/-- Source Line.__init__ (line.py lines 79-81) together with the
LinearGeometry.direction setter (line.py lines 44-50): the direction is
normalized, the normal is the negated perpendicular of the direction, and
the offset is the dot product of the anchor point with the normal.  The
null-direction ValueError path of the setter is not exercised below. -/
def LineR.fromPointDir (point dir : ℝ × ℝ) : LineR :=
  let d := normalizedP dir
  let n := (-(perpP d).1, -(perpP d).2)
  ⟨d, n, point.1 * n.1 + point.2 * n.2⟩

/-- Source Line.distance_to (line.py lines 133-144): the signed distance
point dot normal minus offset. -/
def LineR.distance_to (l : LineR) (p : ℝ × ℝ) : ℝ :=
  p.1 * l.normal.1 + p.2 * l.normal.2 - l.offset

/-- Source Line.contains_point (line.py lines 158-160). -/
def LineR.contains_point (l : LineR) (p : ℝ × ℝ) : Prop :=
  |l.distance_to p| < EPSILONR

/-- An axis-aligned bounding box over the reals, as read by shape_op. -/
structure BBoxR where
  minx : ℝ
  miny : ℝ
  maxx : ℝ
  maxy : ℝ

/-- Source intersect_line_bbox (shape_op.py lines 87-123).  The candidate
coordinates (x1, y1, x2, y2) come from the vertical-direction branch, the
horizontal-direction branch, or the general branch with its fall-backs
from the horizontal box edges to the vertical ones; the common postlude
filters by containment of the first point in the box and returns zero, one
or two points (the one-point return is Vec2(x1, y2) as on line 120). -/
def intersect_line_bbox (line : LineR) (bbox : BBoxR) : List (ℝ × ℝ) :=
  let c : ℝ × ℝ × ℝ × ℝ :=
    if line.direction.1 = 0 then
      (line.offset, bbox.miny, line.offset, bbox.maxy)
    else if line.direction.2 = 0 then
      (bbox.minx, line.offset, bbox.maxx, line.offset)
    else
      let p := (line.normal.1 * line.offset, line.normal.2 * line.offset)
      let slope := line.direction.1 / line.direction.2
      let x1 := p.1 + (bbox.miny - p.2) * slope
      let xy1 :=
        if x1 < bbox.minx ∨ x1 > bbox.maxx then
          (bbox.minx, p.2 + (bbox.minx - p.1) / slope)
        else (x1, bbox.miny)
      let x2 := p.1 + (bbox.maxy - p.2) * slope
      let xy2 :=
        if x2 < bbox.minx ∨ x2 > bbox.maxx then
          (bbox.maxx, p.2 + (bbox.maxx - p.1) / slope)
        else (x2, bbox.maxy)
      (xy1.1, xy1.2, xy2.1, xy2.2)
  if bbox.minx ≤ c.1 ∧ c.1 ≤ bbox.maxx ∧ bbox.miny ≤ c.2.1 ∧ c.2.1 ≤ bbox.maxy then
    if c.1 = c.2.2.1 ∧ c.2.1 = c.2.2.2 then [(c.1, c.2.2.2)]
    else [(c.1, c.2.1), (c.2.2.1, c.2.2.2)]
  else []

end RealModel

/-! ## Shared helper lemmas -/

/-- Clearing the cached properties never changes the vertex list. -/
theorem clearCached_verts (q : PolyState) :
    (clearCachedProperties q).verts = q.verts := by
  unfold clearCachedProperties
  split <;> rfl

/-- Clearing with more than 3 vertices resets the classifications to the
unknown sentinel. -/
theorem clearCached_of_gt (q : PolyState) (h : 3 < q.verts.length) :
    (clearCachedProperties q).convex = Tri.unknown ∧
    (clearCachedProperties q).simple = Tri.unknown := by
  unfold clearCachedProperties
  rw [if_pos h]
  exact ⟨rfl, rfl⟩

/-- Clearing with at most 3 vertices re-flags both classifications as
known true. -/
theorem clearCached_of_le (q : PolyState) (h : ¬ 3 < q.verts.length) :
    (clearCachedProperties q).convex = Tri.known true ∧
    (clearCachedProperties q).simple = Tri.known true := by
  unfold clearCachedProperties
  rw [if_neg h]
  exact ⟨rfl, rfl⟩

/-! ## Claim theorems -/

/-- Claim C1, evaluation at the failing input: the anchored scale transform
Affine.scale(5, anchor=(2,1)) maps its own anchor (2,1) to (18,9) rather
than back to the anchor.  The anchored members of the source are
sx*ax - ax and sy*ay - ay, while a fixed anchor would need ax - sx*ax and
ay - sy*ay, so the anchor is moved by twice its scaled displacement. -/
theorem c1_scale_anchor_not_fixed :
    Affine.applyVec (Affine.scale 5 5 (some (2, 1))) (2, 1) = (18, 9) ∧
    ((18 : ℚ), (9 : ℚ)) ≠ ((2 : ℚ), (1 : ℚ)) := by
  constructor
  · show ((2 : ℚ) * 5 + 1 * 0 + (5 * 2 - 2), (2 : ℚ) * 0 + 1 * 5 + (5 * 1 - 1)) = (18, 9)
    norm_num
  · decide

/-- Claim C2, evaluation at the failing inputs: with node_capacity 4 and a
node of 8 members, the _split assessment rejects the split when all 8
members would move down into the children (where the claimed rejection
condition is false) and commits it when no member at all would move
(where the claimed rejection condition is true): the source comparison is
inverted with respect to the claim and to the docstring of _split. -/
theorem c2_split_rejection_inverted :
    splitCommits 4 (List.replicate 8 true) = false ∧
    ¬ specSplitRejected 4 8 8 ∧
    splitCommits 4 (List.replicate 8 false) = true ∧
    specSplitRejected 4 8 0 := by
  refine ⟨by decide, ?_, by decide, ?_⟩
  · unfold specSplitRejected
    push_neg
    norm_num
  · unfold specSplitRejected
    norm_num

/-- Claim C3, evaluation at the failing input: Polygon.star raises
NameError on every call, including the valid call star(3, 1, 1/2), because
the body reads the unbound name peak_count.  Moreover the claimed
placement is not restored by fixing the name alone: with only
peak_count := peaks bound, star(2, 1, 1) produces the vertices
(1,0), (0,1), (0,1), (-1,0) - the loop advances the angle once per
iteration, so an angle repeats and the turn is not completed - while the
claim, the spec and the test suite place the four vertices every 90
degrees at (1,0), (0,1), (-1,0), (0,-1). -/
theorem c3_star_always_raises_nameerror :
    Polygon.star 3 1 (1 / 2) (0, 0) 0 = Except.error PyErr.nameErr ∧
    Polygon.star_name_fixed 2 1 1 (0, 0) 0 =
      Except.ok [(1, 0), (0, 1), (0, 1), (-1, 0)] ∧
    starClaimed 2 1 1 (0, 0) 0 = [(1, 0), (0, 1), (-1, 0), (0, -1)] ∧
    ([(1, 0), (0, 1), (0, 1), (-1, 0)] : List (ℝ × ℝ)) ≠
      [(1, 0), (0, 1), (-1, 0), (0, -1)] := by
  have h0 : cos_sin_deg 0 = (1, 0) := by
    unfold cos_sin_deg
    norm_num
  have h90 : cos_sin_deg 90 = (0, 1) := by
    unfold cos_sin_deg
    rw [show (90 : ℝ) * Real.pi / 180 = Real.pi / 2 by ring]
    rw [Real.cos_pi_div_two, Real.sin_pi_div_two]
  have h180 : cos_sin_deg 180 = (-1, 0) := by
    unfold cos_sin_deg
    rw [show (180 : ℝ) * Real.pi / 180 = Real.pi by ring]
    rw [Real.cos_pi, Real.sin_pi]
  have h270 : cos_sin_deg 270 = (0, -1) := by
    unfold cos_sin_deg
    rw [show (270 : ℝ) * Real.pi / 180 = Real.pi + Real.pi / 2 by ring]
    rw [Real.cos_add, Real.sin_add, Real.cos_pi, Real.sin_pi,
      Real.cos_pi_div_two, Real.sin_pi_div_two]
    norm_num
  refine ⟨rfl, ?_, ?_, ?_⟩
  · unfold Polygon.star_name_fixed
    rw [if_neg (by norm_num : ¬ (2 : ℤ) < 2)]
    rw [show (180 / (((2 : ℤ) : ℝ))) = 90 by norm_num]
    rw [show ((2 : ℤ).toNat) = 2 from rfl]
    rw [show starLoop 1 1 0 0 90 2 0 =
        [((cos_sin_deg 0).1 * 1 + 0, (cos_sin_deg 0).2 * 1 + 0),
         ((cos_sin_deg (0 + 90)).1 * 1 + 0, (cos_sin_deg (0 + 90)).2 * 1 + 0),
         ((cos_sin_deg (0 + 90)).1 * 1 + 0, (cos_sin_deg (0 + 90)).2 * 1 + 0),
         ((cos_sin_deg (0 + 90 + 90)).1 * 1 + 0,
          (cos_sin_deg (0 + 90 + 90)).2 * 1 + 0)] from rfl]
    rw [show ((0 : ℝ) + 90) = 90 by norm_num]
    rw [show ((90 : ℝ) + 90) = 180 by norm_num]
    rw [h0, h90, h180]
    norm_num
  · unfold starClaimed
    rw [show (180 / (((2 : ℕ) : ℝ))) = 90 by norm_num]
    rw [show List.range (2 * 2) = [0, 1, 2, 3] from rfl]
    simp only [List.map]
    norm_num [h0, h90, h180, h270]
  · simp only [ne_eq, List.cons.injEq, Prod.mk.injEq]
    norm_num

/-- Claim C5, evaluation at the failing input: for the horizontal line
through (0,5) with direction (1,0) (normal (0,-1), offset -5) and the box
with corners (0,-6) and (1,-4), intersect_line_bbox returns the two points
(0,-5) and (1,-5), neither of which is on the line: the horizontal branch
uses line.offset directly as the y coordinate where the line itself lies
at y = 5.  In particular the first returned point fails contains_point. -/
theorem c5_intersect_line_bbox_point_off_line :
    intersect_line_bbox (LineR.fromPointDir (0, 5) (1, 0)) ⟨0, -6, 1, -4⟩ =
      [(0, -5), (1, -5)] ∧
    ¬ (LineR.fromPointDir (0, 5) (1, 0)).contains_point (0, -5) := by
  have hn : normalizedP ((1 : ℝ), (0 : ℝ)) = (1, 0) := by
    unfold normalizedP
    rw [show ((1 : ℝ) ^ 2 + (0 : ℝ) ^ 2) = 1 by norm_num, Real.sqrt_one]
    rw [if_pos (by norm_num [EPSILONR] : (1 : ℝ) > EPSILONR)]
    norm_num
  have hline : LineR.fromPointDir (0, 5) (1, 0) = ⟨(1, 0), (0, -1), -5⟩ := by
    unfold LineR.fromPointDir perpP
    rw [hn]
    norm_num
  rw [hline]
  constructor
  · unfold intersect_line_bbox
    norm_num
  · unfold LineR.contains_point LineR.distance_to EPSILONR
    norm_num

/-- Claim C6: for any transform whose determinant is at least EPSILON in
absolute value, composing it with its inverse through matrix
multiplication yields a transform that is almost_equals to the identity;
in exact arithmetic the product is exactly the identity matrix. -/
theorem c6_mul_invert_almost_identity (t : Affine)
    (h : EPSILON ≤ |t.determinant|) :
    Affine.almost_equals (t.mul t.invert) Affine.identity = true := by
  have hdet : t.a * t.e - t.b * t.d ≠ 0 := by
    intro h0
    have hd0 : t.determinant = 0 := h0
    rw [hd0] at h
    norm_num [EPSILON] at h
  have hexact : t.mul t.invert = Affine.identity := by
    unfold Affine.mul Affine.invert Affine.identity Affine.determinant
    simp only [Affine.mk.injEq]
    refine ⟨?_, ?_, ?_, ?_, ?_, ?_⟩ <;> field_simp <;> ring
  rw [hexact]
  norm_num [Affine.almost_equals, Affine.identity, EPSILON]

/-- Claim C6 witness: the concrete non-degenerate transform
Affine(2,0,3,0,2,5) composed with its inverse is almost the identity. -/
theorem c6_witness :
    Affine.almost_equals
      ((Affine.mk 2 0 3 0 2 5).mul (Affine.mk 2 0 3 0 2 5).invert)
      Affine.identity = true :=
  c6_mul_invert_almost_identity ⟨2, 0, 3, 0, 2, 5⟩
    (by norm_num [Affine.determinant, EPSILON])

/-- Claim C7, evaluation at the failing input: on the polygon
(0,0), (1,1), (2,0), (1,1), whose non-adjacent edges touch at the repeated
vertex (1,1), the brute-force pairwise check classifies the polygon as
non-simple while the production plane-sweep check classifies it as simple:
the sweep closes an edge before opening a later edge that starts exactly
at its sorted end point, so the touching pair is never tested. -/
theorem c7_sweep_disagrees_with_brute_force :
    checkIsSimpleBruteForce pinchPoly = false ∧
    checkIsSimple pinchPoly = true := by
  constructor
  · norm_num [checkIsSimpleBruteForce, pinchPoly, polyEdges, vIdx, bruteLoop,
      segmentsIntersect, List.range_succ]
  · norm_num [checkIsSimple, pinchPoly, polyEdges, vIdx, sortEvents,
      insertEvent, eventLT, pairLT, sweepLoop, segmentsIntersect,
      List.range_succ, Nat.dist]

/-- Claim C9: assigning a vertex of a polygon with more than 3 vertices
resets both cached classifications to unknown, so is_convex_known and
is_simple_known report false afterwards; for a 3-vertex polygon both
classifications are known true at construction and remain known true
after any vertex assignment. -/
theorem c9_setitem_resets_classification (vs : List (ℚ × ℚ)) (p : PolyState)
    (i : ℕ) (v : ℚ × ℚ) (hp : mkPolygon vs = some p) (_hi : i < vs.length) :
    (3 < vs.length →
      isConvexKnown (polySetItem p i v) = false ∧
      isSimpleKnown (polySetItem p i v) = false) ∧
    (vs.length = 3 →
      p.convex = Tri.known true ∧ p.simple = Tri.known true ∧
      (polySetItem p i v).convex = Tri.known true ∧
      (polySetItem p i v).simple = Tri.known true) := by
  unfold mkPolygon at hp
  by_cases h3 : vs.length < 3
  · rw [if_pos h3] at hp
    exact absurd hp (by simp)
  · rw [if_neg h3] at hp
    have hp' := Option.some.inj hp
    have hpverts : p.verts = vs := by
      rw [← hp', clearCached_verts]
    have hsetlen : (p.verts.set i v).length = vs.length := by
      rw [List.length_set, hpverts]
    constructor
    · intro h4
      have hres := clearCached_of_gt { p with verts := p.verts.set i v }
        (by simpa [hsetlen] using h4)
      unfold polySetItem isConvexKnown isSimpleKnown
      rw [hres.1, hres.2]
      exact ⟨by decide, by decide⟩
    · intro heq
      have hpconv : p.convex = Tri.known true ∧ p.simple = Tri.known true := by
        rw [← hp']
        exact clearCached_of_le _ (by simp [heq])
      have hres := clearCached_of_le { p with verts := p.verts.set i v }
        (by rw [hsetlen, heq]; omega)
      unfold polySetItem
      exact ⟨hpconv.1, hpconv.2, hres.1, hres.2⟩

/-- Claim C9 witness: instantiation at a concrete 4-vertex square polygon
(assigning vertex 0) and at a concrete 3-vertex triangle polygon. -/
theorem c9_witness :
    (isConvexKnown (polySetItem
        ⟨[(0, 0), (1, 0), (1, 1), (0, 1)], Tri.unknown, Tri.unknown,
          Tri.unknown, none⟩ 0 (5, 5)) = false ∧
      isSimpleKnown (polySetItem
        ⟨[(0, 0), (1, 0), (1, 1), (0, 1)], Tri.unknown, Tri.unknown,
          Tri.unknown, none⟩ 0 (5, 5)) = false) ∧
    ((⟨[(0, 0), (1, 0), (1, 1)], Tri.known true, Tri.known true,
          Tri.unknown, none⟩ : PolyState).convex = Tri.known true ∧
      (⟨[(0, 0), (1, 0), (1, 1)], Tri.known true, Tri.known true,
          Tri.unknown, none⟩ : PolyState).simple = Tri.known true ∧
      (polySetItem ⟨[(0, 0), (1, 0), (1, 1)], Tri.known true, Tri.known true,
          Tri.unknown, none⟩ 0 (5, 5)).convex = Tri.known true ∧
      (polySetItem ⟨[(0, 0), (1, 0), (1, 1)], Tri.known true, Tri.known true,
          Tri.unknown, none⟩ 0 (5, 5)).simple = Tri.known true) := by
  constructor
  · exact (c9_setitem_resets_classification
      [(0, 0), (1, 0), (1, 1), (0, 1)] _ 0 (5, 5) (by decide) (by decide)).1
      (by decide)
  · exact (c9_setitem_resets_classification
      [(0, 0), (1, 0), (1, 1)] _ 0 (5, 5) (by decide) (by decide)).2
      (by decide)

/-- Claim C4 counterexample: scaled_to(-5) applied to Vec2(3,4) pre-seeds
the memoized length slot with -5, so the length attribute of the result
(-3,-4) is -5 while the square root of x^2 + y^2 is 5: the length
attribute is not the non-negative magnitude. -/
theorem c4_counterexample :
    Vec2R.lengthAttr (Vec2R.scaled_to (Vec2R.make 3 4) (-5)) ≠
      Real.sqrt ((Vec2R.scaled_to (Vec2R.make 3 4) (-5)).x ^ 2 +
        (Vec2R.scaled_to (Vec2R.make 3 4) (-5)).y ^ 2) := by
  have hlen : Vec2R.lengthAttr (Vec2R.make 3 4) = 5 := by
    show Real.sqrt (Vec2R.length2attr (Vec2R.make 3 4)) = 5
    show Real.sqrt ((3 : ℝ) ^ 2 + (4 : ℝ) ^ 2) = 5
    rw [show ((3 : ℝ) ^ 2 + (4 : ℝ) ^ 2) = 5 ^ 2 by norm_num]
    exact Real.sqrt_sq (by norm_num)
  have hsc : Vec2R.scaled_to (Vec2R.make 3 4) (-5) = ⟨-3, -4, some (-5)⟩ := by
    unfold Vec2R.scaled_to
    rw [hlen]
    rw [if_pos (by norm_num [EPSILONR] : (5 : ℝ) > EPSILONR)]
    show (⟨3 * (-5 / 5), 4 * (-5 / 5), some (-5)⟩ : Vec2R) = ⟨-3, -4, some (-5)⟩
    norm_num
  rw [hsc]
  have hrt : Real.sqrt (((⟨-3, -4, some (-5)⟩ : Vec2R)).x ^ 2 +
      ((⟨-3, -4, some (-5)⟩ : Vec2R)).y ^ 2) = 5 := by
    show Real.sqrt ((-3 : ℝ) ^ 2 + (-4 : ℝ) ^ 2) = 5
    rw [show ((-3 : ℝ) ^ 2 + (-4 : ℝ) ^ 2) = 5 ^ 2 by norm_num]
    exact Real.sqrt_sq (by norm_num)
  rw [hrt]
  show (-5 : ℝ) ≠ 5
  norm_num

/-- Claim C4 amended: length2 always equals x^2 + y^2 (for polar it equals
the square of the length argument); the length attribute equals the
non-negative magnitude sqrt(x^2 + y^2) for directly constructed vectors,
and for polar and scaled_to whenever the length argument is non-negative.
With a negative length argument those two constructors cache that negative
value verbatim, which is the negated magnitude. -/
theorem c4_length_attributes (x y angle L len : ℝ) (hL : 0 ≤ L)
    (hlen : 0 ≤ len) :
    Vec2R.length2attr (Vec2R.make x y) = x ^ 2 + y ^ 2 ∧
    Vec2R.lengthAttr (Vec2R.make x y) =
      Real.sqrt (Vec2R.length2attr (Vec2R.make x y)) ∧
    Vec2R.length2attr (Vec2R.polar angle L) = L ^ 2 ∧
    Vec2R.lengthAttr (Vec2R.polar angle L) =
      Real.sqrt (Vec2R.length2attr (Vec2R.polar angle L)) ∧
    Vec2R.lengthAttr (Vec2R.scaled_to (Vec2R.make x y) len) =
      Real.sqrt (Vec2R.length2attr (Vec2R.scaled_to (Vec2R.make x y) len)) := by
  have hpol2 : Vec2R.length2attr (Vec2R.polar angle L) = L ^ 2 := by
    show (Real.cos (angle * Real.pi / 180) * L) ^ 2 +
        (Real.sin (angle * Real.pi / 180) * L) ^ 2 = L ^ 2
    have hpyth := Real.sin_sq_add_cos_sq (angle * Real.pi / 180)
    nlinarith [hpyth]
  refine ⟨rfl, rfl, hpol2, ?_, ?_⟩
  · rw [hpol2]
    show L * 1 = Real.sqrt (L ^ 2)
    rw [Real.sqrt_sq hL, mul_one]
  · by_cases hc : Vec2R.lengthAttr (Vec2R.make x y) > EPSILONR
    · have hMpos : (0 : ℝ) < Vec2R.lengthAttr (Vec2R.make x y) :=
        lt_trans (by norm_num [EPSILONR]) hc
      have hMne : Vec2R.lengthAttr (Vec2R.make x y) ≠ 0 := ne_of_gt hMpos
      have hnn : (0 : ℝ) ≤ Vec2R.length2attr (Vec2R.make x y) := by
        unfold Vec2R.length2attr
        positivity
      have hM2 : Vec2R.lengthAttr (Vec2R.make x y) ^ 2 = x ^ 2 + y ^ 2 := by
        show Real.sqrt (Vec2R.length2attr (Vec2R.make x y)) ^ 2 = x ^ 2 + y ^ 2
        rw [Real.sq_sqrt hnn]
        rfl
      have hres : Vec2R.scaled_to (Vec2R.make x y) len =
          ⟨x * (len / Vec2R.lengthAttr (Vec2R.make x y)),
           y * (len / Vec2R.lengthAttr (Vec2R.make x y)), some len⟩ := by
        unfold Vec2R.scaled_to
        rw [if_pos hc]
        rfl
      rw [hres]
      have h2 : Vec2R.length2attr
          ⟨x * (len / Vec2R.lengthAttr (Vec2R.make x y)),
           y * (len / Vec2R.lengthAttr (Vec2R.make x y)), some len⟩ = len ^ 2 := by
        unfold Vec2R.length2attr
        have hexp : (x * (len / Vec2R.lengthAttr (Vec2R.make x y))) ^ 2 +
            (y * (len / Vec2R.lengthAttr (Vec2R.make x y))) ^ 2 =
            (x ^ 2 + y ^ 2) * len ^ 2 / Vec2R.lengthAttr (Vec2R.make x y) ^ 2 := by
          field_simp
          ring
        rw [hexp, ← hM2]
        field_simp
      rw [h2]
      show len = Real.sqrt (len ^ 2)
      rw [Real.sqrt_sq hlen]
    · have hres : Vec2R.scaled_to (Vec2R.make x y) len = Vec2R.null := by
        unfold Vec2R.scaled_to
        rw [if_neg hc]
      rw [hres]
      rfl

/-- Claim C4 witness: instantiation of the amended statement at the
concrete inputs x = 1, y = 2, angle = 30, polar length 3 and scaled_to
length 4. -/
theorem c4_witness :
    (0 : ℝ) ≤ 3 ∧ (0 : ℝ) ≤ 4 ∧
    (Vec2R.length2attr (Vec2R.make 1 2) = 1 ^ 2 + 2 ^ 2 ∧
      Vec2R.lengthAttr (Vec2R.make 1 2) =
        Real.sqrt (Vec2R.length2attr (Vec2R.make 1 2)) ∧
      Vec2R.length2attr (Vec2R.polar 30 3) = 3 ^ 2 ∧
      Vec2R.lengthAttr (Vec2R.polar 30 3) =
        Real.sqrt (Vec2R.length2attr (Vec2R.polar 30 3)) ∧
      Vec2R.lengthAttr (Vec2R.scaled_to (Vec2R.make 1 2) 4) =
        Real.sqrt (Vec2R.length2attr (Vec2R.scaled_to (Vec2R.make 1 2) 4))) :=
  ⟨by norm_num, by norm_num,
    c4_length_attributes 1 2 30 3 4 (by norm_num) (by norm_num)⟩

/-- Claim C8: every ordering operator on Vec2 compares the squared lengths
of the two vectors, which (by monotonicity of the square root on the
non-negative squared lengths) is the same as comparing their magnitudes;
against a plain tuple or a number, each operator reaches the
unorderable-comparison error rather than producing a boolean. -/
theorem c8_ordering_by_squared_length (u v : Vec2R) (t : List ℝ) (r : ℝ) :
    (Vec2R.ltOp u (Operand.vec v) =
        CmpOutcome.value (u.length2attr < v.length2attr) ∧
      (u.length2attr < v.length2attr ↔
        Real.sqrt u.length2attr < Real.sqrt v.length2attr)) ∧
    (Vec2R.leOp u (Operand.vec v) =
        CmpOutcome.value (u.length2attr ≤ v.length2attr) ∧
      (u.length2attr ≤ v.length2attr ↔
        Real.sqrt u.length2attr ≤ Real.sqrt v.length2attr)) ∧
    (Vec2R.gtOp u (Operand.vec v) =
        CmpOutcome.value (u.length2attr > v.length2attr)) ∧
    (Vec2R.geOp u (Operand.vec v) =
        CmpOutcome.value (u.length2attr ≥ v.length2attr)) ∧
    Vec2R.ltOp u (Operand.tup t) = CmpOutcome.raises ∧
    Vec2R.ltOp u (Operand.num r) = CmpOutcome.raises ∧
    Vec2R.leOp u (Operand.tup t) = CmpOutcome.raises ∧
    Vec2R.leOp u (Operand.num r) = CmpOutcome.raises ∧
    Vec2R.gtOp u (Operand.tup t) = CmpOutcome.raises ∧
    Vec2R.gtOp u (Operand.num r) = CmpOutcome.raises ∧
    Vec2R.geOp u (Operand.tup t) = CmpOutcome.raises ∧
    Vec2R.geOp u (Operand.num r) = CmpOutcome.raises := by
  have hu : (0 : ℝ) ≤ u.length2attr := by
    unfold Vec2R.length2attr
    positivity
  have hv : (0 : ℝ) ≤ v.length2attr := by
    unfold Vec2R.length2attr
    positivity
  refine ⟨⟨rfl, ?_⟩, ⟨rfl, ?_⟩, rfl, rfl, rfl, rfl, rfl, rfl, rfl, rfl, rfl, rfl⟩
  · exact (Real.sqrt_lt_sqrt_iff hu).symm
  · exact (Real.sqrt_le_sqrt_iff hv).symm

/-- Claim C10: bbox_collides_bbox is not commutative.  Whenever box x
touches box y exactly along the edge where the maximum x coordinate of x
equals the minimum x coordinate of y while the y extents properly
overlap, and both boxes have positive width and height, the test is true
for (x, y) and false for (y, x). -/
theorem c10_bbox_collides_not_commutative (x y : BBox)
    (hxw : x.minx < x.maxx) (_hxh : x.miny < x.maxy)
    (hyw : y.minx < y.maxx) (_hyh : y.miny < y.maxy)
    (htouch : x.maxx = y.minx)
    (hylo : x.miny < y.maxy) (hyhi : y.miny < x.maxy) :
    bbox_collides_bbox x y = true ∧ bbox_collides_bbox y x = false := by
  unfold bbox_collides_bbox
  have h1 : x.minx < y.maxx := by linarith
  have h5 : ¬ (y.minx < x.maxx) := by
    rw [htouch]
    exact lt_irrefl _
  constructor
  · simp only [Bool.and_eq_true, decide_eq_true_eq]
    exact ⟨⟨⟨h1, htouch.ge⟩, hylo⟩, le_of_lt hyhi⟩
  · rw [decide_eq_false h5]
    simp

/-- Claim C10 witness: the unit box with corners (0,0), (1,1) and the box
with corners (1,0), (2,1) touching it along the edge x = 1. -/
theorem c10_witness :
    bbox_collides_bbox ⟨0, 0, 1, 1⟩ ⟨1, 0, 2, 1⟩ = true ∧
    bbox_collides_bbox ⟨1, 0, 2, 1⟩ ⟨0, 0, 1, 1⟩ = false :=
  c10_bbox_collides_not_commutative ⟨0, 0, 1, 1⟩ ⟨1, 0, 2, 1⟩
    (by norm_num) (by norm_num) (by norm_num) (by norm_num)
    (by norm_num) (by norm_num) (by norm_num)

end Planar
